import Mathlib

/-!
Verification development for the restaurant ETL pipeline (`transform.py`).

The pipeline loads three tables (`orders`, `order_items`, `menu_items`),
inner-joins them, computes two aggregates (daily revenue by category, top
selling items), runs observational data-quality checks, and persists the
aggregates transactionally into two target tables.

Tabular data is embedded as lists of typed rows.  Pandas inner `merge` is
embedded as a left-major nested product over matching keys; `groupby` (with
its default key-sorted output) as deduplicated keys sorted ascending, each
paired with the fold of its group; `sort_values(ascending=False)` as a
stable sort by the descending comparator; `head(10)` as `List.take 10`.
Monetary amounts are integers counting hundredths (SQL `DECIMAL(10,2)` is
an exact fixed-point type, so its sums are exactly the scaled integer
sums); quantities are integers.
-/

/-- A row of the `orders` table: `order_id` (key), `order_date`, `total_amount`. -/
structure OrderRow where
  order_id : Nat
  order_date : Nat
  total_amount : Int
  deriving DecidableEq, Repr

/-- A row of the `order_items` table: foreign keys `order_id`, `item_id`, and `quantity`. -/
structure OrderItemRow where
  order_id : Nat
  item_id : Nat
  quantity : Int
  deriving DecidableEq, Repr

/-- A row of the `menu_items` table: `item_id` (key), `item_name`, `category`. -/
structure MenuItemRow where
  item_id : Nat
  item_name : String
  category : String
  deriving DecidableEq, Repr

/-- A row of `orders.merge(order_items, on='order_id')`. -/
structure OrderWithItemRow where
  order_id : Nat
  order_date : Nat
  total_amount : Int
  item_id : Nat
  quantity : Int
  deriving DecidableEq, Repr

/-- A row of the fully joined dataset `joined_df`. -/
structure JoinedRow where
  order_id : Nat
  order_date : Nat
  total_amount : Int
  item_id : Nat
  quantity : Int
  item_name : String
  category : String
  deriving DecidableEq, Repr

/-- The three input datasets returned by `load_data`. -/
structure InputData where
  orders : List OrderRow
  order_items : List OrderItemRow
  menu_items : List MenuItemRow
  deriving DecidableEq, Repr

/-- `data['orders'].merge(data['order_items'], on='order_id')`: inner join,
left-row-major, matching right rows in their original order. -/
def mergeOnOrderId (orders : List OrderRow) (items : List OrderItemRow) :
    List OrderWithItemRow :=
  orders.flatMap fun o =>
    (items.filter fun oi => oi.order_id == o.order_id).map fun oi =>
      ⟨o.order_id, o.order_date, o.total_amount, oi.item_id, oi.quantity⟩

/-- `.merge(data['menu_items'], on='item_id')`: second inner join. -/
def mergeOnItemId (left : List OrderWithItemRow) (menu : List MenuItemRow) :
    List JoinedRow :=
  left.flatMap fun r =>
    (menu.filter fun m => m.item_id == r.item_id).map fun m =>
      ⟨r.order_id, r.order_date, r.total_amount, r.item_id, r.quantity,
        m.item_name, m.category⟩

/-- `joined_df`: orders ⋈ order_items ⋈ menu_items. -/
def joinedData (d : InputData) : List JoinedRow :=
  mergeOnItemId (mergeOnOrderId d.orders d.order_items) d.menu_items

/-- Grouping key of the daily-revenue aggregate: `(order_date, category)`. -/
def drKey (r : JoinedRow) : Nat × String := (r.order_date, r.category)

/-- Lexicographic ascending order on group keys (pandas `groupby` sorts the
group keys by default).  Strings are compared by their character data, the
same order as the string order itself. -/
def keyLE (a b : Nat × String) : Prop :=
  a.1 < b.1 ∨ (a.1 = b.1 ∧ a.2.data ≤ b.2.data)

instance : DecidableRel keyLE := fun a b => by
  unfold keyLE; exact inferInstance

/-- A row of the `daily_revenue` result. -/
structure DailyRevenueRow where
  order_date : Nat
  category : String
  total_amount : Int
  deriving DecidableEq, Repr

/-- The distinct `(order_date, category)` keys of the joined data, in the
ascending order pandas `groupby` emits them. -/
def drGroupKeys (j : List JoinedRow) : List (Nat × String) :=
  List.insertionSort keyLE (j.map drKey).dedup

/-- `joined_df.groupby(['order_date','category']).agg({'total_amount':'sum'}).reset_index()`. -/
def daily_revenue (j : List JoinedRow) : List DailyRevenueRow :=
  (drGroupKeys j).map fun k =>
    ⟨k.1, k.2, ((j.filter fun r => drKey r == k).map (·.total_amount)).sum⟩

/-- Grouping key of the top-items aggregate: `(item_id, item_name)`. -/
def tiKey (r : JoinedRow) : Nat × String := (r.item_id, r.item_name)

/-- A row of the `top_items` result (the summed column keeps the name
`quantity`, as the source later reads `row['quantity']`). -/
structure TopItemsRow where
  item_id : Nat
  item_name : String
  quantity : Int
  deriving DecidableEq, Repr

/-- The distinct `(item_id, item_name)` keys of the joined data, ascending. -/
def tiGroupKeys (j : List JoinedRow) : List (Nat × String) :=
  List.insertionSort keyLE (j.map tiKey).dedup

/-- `joined_df.groupby(['item_id','item_name']).agg({'quantity':'sum'})`. -/
def topItemsGrouped (j : List JoinedRow) : List TopItemsRow :=
  (tiGroupKeys j).map fun k =>
    ⟨k.1, k.2, ((j.filter fun r => tiKey r == k).map (·.quantity)).sum⟩

/-- Descending-by-quantity order for `sort_values('quantity', ascending=False)`. -/
def qtyGE (a b : TopItemsRow) : Prop := b.quantity ≤ a.quantity

instance : DecidableRel qtyGE := fun a b => by
  unfold qtyGE; exact inferInstance

instance : IsTotal TopItemsRow qtyGE :=
  ⟨fun a b => le_total b.quantity a.quantity⟩

instance : IsTrans TopItemsRow qtyGE :=
  ⟨fun _ _ _ hab hbc => le_trans hbc hab⟩

/-- The grouped rows sorted descending by summed quantity. -/
def topItemsSorted (j : List JoinedRow) : List TopItemsRow :=
  List.insertionSort qtyGE (topItemsGrouped j)

/-- `top_items`: sort descending by quantity, `.head(10)`, `.reset_index()`. -/
def top_items (j : List JoinedRow) : List TopItemsRow :=
  (topItemsSorted j).take 10

/-- The triple returned by `perform_transformations`:
`(joined_data, daily_revenue, top_items)`. -/
def performTransformations (d : InputData) :
    List JoinedRow × List DailyRevenueRow × List TopItemsRow :=
  let j := joinedData d
  (j, daily_revenue j, top_items j)

/-- Warnings the data-quality checks may log. -/
inductive QCWarning where
  | nullValues : QCWarning
  | duplicateOrders : Nat → QCWarning
  deriving DecidableEq, Repr

/-- `df['order_id'].duplicated().sum()`: the number of rows whose `order_id`
already occurred in an earlier row. -/
def duplicateOrderCount (j : List JoinedRow) : Nat :=
  (j.map (·.order_id)).length - (j.map (·.order_id)).dedup.length

/-- `df.isnull().sum().any()`.  The embedding's rows carry concrete
non-nullable values in every column, so no null is ever present. -/
def anyNulls (_j : List JoinedRow) : Bool := false

/-- `_perform_data_quality_checks`: emits warnings only, returns nothing. -/
def dataQualityChecks (j : List JoinedRow) : List QCWarning :=
  (if anyNulls j then [QCWarning.nullValues] else []) ++
    (if duplicateOrderCount j > 0
      then [QCWarning.duplicateOrders (duplicateOrderCount j)] else [])

/-- `perform_transformations` including the quality-check call: the returned
mapping together with the warnings the checks logged. -/
def performTransformationsWithChecks (d : InputData) :
    (List JoinedRow × List DailyRevenueRow × List TopItemsRow) × List QCWarning :=
  let j := joinedData d
  ((j, daily_revenue j, top_items j), dataQualityChecks j)

/-- The sum of `total_amount` over the distinct `(order_id, total_amount)`
pairs among the joined rows of the `(order_date, category)` group `k`: each
contributing order is counted once rather than once per line item. -/
def distinctOrdersAmountSum (j : List JoinedRow) (k : Nat × String) : Int :=
  (((j.filter fun r => drKey r == k).map fun r =>
      (r.order_id, r.total_amount)).dedup.map (·.2)).sum

example :
    performTransformations
      ⟨[⟨1, 20240101, 30⟩], [⟨1, 1, 2⟩], [⟨1, "Burger", "Main"⟩]⟩ =
    ([⟨1, 20240101, 30, 1, 2, "Burger", "Main"⟩],
      [⟨20240101, "Main", 30⟩], [⟨1, "Burger", 2⟩]) := by decide

/-! ## Persistence (`save_results`)

The relational engine is modelled as a transactional session: a committed
snapshot of the two target tables and a working snapshot that
`cursor.execute` mutates; `conn.commit()` publishes the working snapshot
and `conn.rollback()` discards it.  A run of `save_results` is a fixed
sequence of fallible DB operations; failure is injected by the index of
the operation that raises. -/

/-- The two target tables: existence flag and rows of `daily_revenue`, and
of `top_selling_items`. -/
structure TargetTables where
  dr_exists : Bool
  daily_revenue_tbl : List DailyRevenueRow
  top_exists : Bool
  top_selling_tbl : List TopItemsRow
  deriving DecidableEq, Repr

/-- A database session: committed state plus the in-transaction working state. -/
structure DBSession where
  committed : TargetTables
  working : TargetTables
  deriving DecidableEq, Repr

/-- The `results` mapping passed to `save_results`. -/
structure Results where
  daily_revenue_res : List DailyRevenueRow
  top_items_res : List TopItemsRow
  deriving DecidableEq, Repr

/-- One `cursor.execute` call issued by `save_results`. -/
inductive SaveStep where
  | createDR : SaveStep
  | createTop : SaveStep
  | truncateDR : SaveStep
  | truncateTop : SaveStep
  | insertDR : DailyRevenueRow → SaveStep
  | insertTop : TopItemsRow → SaveStep
  deriving DecidableEq, Repr

/-- Effect of one statement on the working snapshot (`CREATE TABLE IF NOT
EXISTS`, `TRUNCATE TABLE`, single-row `INSERT`). -/
def applySaveStep (st : SaveStep) (t : TargetTables) : TargetTables :=
  match st with
  | .createDR =>
      if t.dr_exists then t
      else { t with dr_exists := true, daily_revenue_tbl := [] }
  | .createTop =>
      if t.top_exists then t
      else { t with top_exists := true, top_selling_tbl := [] }
  | .truncateDR => { t with daily_revenue_tbl := [] }
  | .truncateTop => { t with top_selling_tbl := [] }
  | .insertDR r => { t with daily_revenue_tbl := t.daily_revenue_tbl ++ [r] }
  | .insertTop r => { t with top_selling_tbl := t.top_selling_tbl ++ [r] }

/-- The `cursor.execute` calls of one `save_results` run, in source order:
two creates, two truncates, one insert per `daily_revenue` row, one insert
per `top_items` row. -/
def saveSteps (res : Results) : List SaveStep :=
  [.createDR, .createTop, .truncateDR, .truncateTop]
    ++ res.daily_revenue_res.map SaveStep.insertDR
    ++ res.top_items_res.map SaveStep.insertTop

/-- Run statements against the working snapshot inside the transaction. -/
def execSteps (steps : List SaveStep) (s : DBSession) : DBSession :=
  { s with working := steps.foldl (fun t st => applySaveStep st t) s.working }

/-- `conn.commit()`. -/
def commitSession (s : DBSession) : DBSession :=
  { s with committed := s.working }

/-- `conn.rollback()`. -/
def rollbackSession (s : DBSession) : DBSession :=
  { s with working := s.committed }

/-- `save_results`: `failAt = some k` makes the k-th DB operation raise
(`k < (saveSteps res).length` is one of the `cursor.execute` calls,
`k = (saveSteps res).length` is `conn.commit()`); `none` (or an
out-of-range index) means every operation succeeds.  On failure the
`except` handler rolls the transaction back and re-raises.  Returns the
final session and whether an exception propagated to the caller. -/
def save_results (s : DBSession) (res : Results) (failAt : Option Nat) :
    DBSession × Bool :=
  let steps := saveSteps res
  match failAt with
  | none => (commitSession (execSteps steps s), false)
  | some k =>
      if k < steps.length then
        (rollbackSession (execSteps (steps.take k) s), true)
      else if k = steps.length then
        (rollbackSession (execSteps steps s), true)
      else
        (commitSession (execSteps steps s), false)

/-- The table contents a successful `save_results` run publishes: both tables
exist and hold exactly the aggregate rows. -/
def finalTables (res : Results) : TargetTables :=
  ⟨true, res.daily_revenue_res, true, res.top_items_res⟩

/-! ## Connection manager (`DatabaseConnection`) -/

/-- The `conn` and `cur` attributes of a `DatabaseConnection` (handles are
opaque naturals; `None` is `Option.none`).  `connect` assigns `conn` first
and `cur` second, so a partial `connect` leaves `conn` set and `cur` unset. -/
structure ConnectionState where
  conn : Option Nat
  cur : Option Nat
  deriving DecidableEq, Repr

/-- `DatabaseConnection.__init__`: both attributes are `None`. -/
def connectionInit : ConnectionState := ⟨none, none⟩

/-- Calling `.close()` on an attribute: an `AttributeError` if the attribute
is `None`, success on a real handle. -/
def releaseHandle : Option Nat → Except String Unit
  | none => .error "AttributeError"
  | some _ => .ok ()

/-- `DatabaseConnection.close`: tests each attribute for truthiness before
releasing it (`if self.cur: ...`, `if self.conn: ...`). -/
def connectionClose (s : ConnectionState) : Except String Unit := do
  if s.cur.isSome then releaseHandle s.cur
  if s.conn.isSome then releaseHandle s.conn

/-! ## Pipeline driver (`main`) -/

/-- The five pipeline stages `main` runs inside its `try` block. -/
inductive Stage where
  | connect : Stage
  | load : Stage
  | transform : Stage
  | save : Stage
  | printRes : Stage
  deriving DecidableEq, Repr

/-- Observable calls `main` makes. -/
inductive Event where
  | connectCall : Event
  | loadCall : Event
  | transformCall : Event
  | saveCall : Event
  | printCall : Event
  | logPipelineError : Event
  | closeCall : Event
  deriving DecidableEq, Repr

/-- The call a stage performs. -/
def stageEvent : Stage → Event
  | .connect => .connectCall
  | .load => .loadCall
  | .transform => .transformCall
  | .save => .saveCall
  | .printRes => .printCall

/-- Position of a stage in the linear control flow of `main`. -/
def stageIdx : Stage → Nat
  | .connect => 0
  | .load => 1
  | .transform => 2
  | .save => 3
  | .printRes => 4

/-- The stages in the order `main` calls them. -/
def stageOrder : List Stage :=
  [.connect, .load, .transform, .save, .printRes]

/-- The driver `main`: runs the five stages in order inside
`try/except/finally`; `failAt` is the first stage whose call raises
(`none`: all succeed).  The `except` arm logs and re-raises, the `finally`
arm always calls `db.close()`.  Returns the sequence of calls made and
whether an exception propagates out of `main`. -/
def mainRun (failAt : Option Stage) : List Event × Bool :=
  match failAt with
  | none => (stageOrder.map stageEvent ++ [.closeCall], false)
  | some st =>
      ((stageOrder.take (stageIdx st + 1)).map stageEvent
        ++ [.logPipelineError, .closeCall], true)

/-! ## Theorems -/

/-- Executing statements inside the transaction never touches the committed
snapshot. -/
theorem execSteps_committed (steps : List SaveStep) (s : DBSession) :
    (execSteps steps s).committed = s.committed := rfl

/-- C3: if any DB operation of `save_results` fails (schema creation,
truncate, any single-row insert, or the commit), the transaction is rolled
back, so the committed contents of `daily_revenue` and `top_selling_items`
are exactly their pre-run contents, and the exception is re-raised to the
caller. -/
theorem save_results_rollback (s : DBSession) (res : Results) (k : Nat)
    (hk : k ≤ (saveSteps res).length) :
    (save_results s res (some k)).1.committed = s.committed ∧
      (save_results s res (some k)).2 = true := by
  unfold save_results
  rcases Nat.lt_or_ge k (saveSteps res).length with h | h
  · simp [h, rollbackSession, execSteps]
  · have hek : k = (saveSteps res).length := Nat.le_antisymm hk h
    simp [hek, rollbackSession, execSteps]

/-- Witness for `save_results_rollback`: a failure on operation 5 (the first
`top_selling_items` insert) leaves a previously committed row intact. -/
theorem save_results_rollback_witness :
    (5 ≤ (saveSteps ⟨[⟨2, "b", 7⟩], [⟨3, "x", 4⟩]⟩).length) ∧
      (save_results
          ⟨⟨true, [⟨1, "a", 5⟩], true, []⟩, ⟨true, [⟨1, "a", 5⟩], true, []⟩⟩
          ⟨[⟨2, "b", 7⟩], [⟨3, "x", 4⟩]⟩ (some 5)).1.committed =
        ⟨true, [⟨1, "a", 5⟩], true, []⟩ ∧
      (save_results
          ⟨⟨true, [⟨1, "a", 5⟩], true, []⟩, ⟨true, [⟨1, "a", 5⟩], true, []⟩⟩
          ⟨[⟨2, "b", 7⟩], [⟨3, "x", 4⟩]⟩ (some 5)).2 = true :=
  ⟨by decide,
    (save_results_rollback
      ⟨⟨true, [⟨1, "a", 5⟩], true, []⟩, ⟨true, [⟨1, "a", 5⟩], true, []⟩⟩
      ⟨[⟨2, "b", 7⟩], [⟨3, "x", 4⟩]⟩ 5 (by decide)).1,
    (save_results_rollback
      ⟨⟨true, [⟨1, "a", 5⟩], true, []⟩, ⟨true, [⟨1, "a", 5⟩], true, []⟩⟩
      ⟨[⟨2, "b", 7⟩], [⟨3, "x", 4⟩]⟩ 5 (by decide)).2⟩

/-- Folding the `daily_revenue` inserts appends exactly those rows. -/
theorem foldl_insertDR (rows : List DailyRevenueRow) (t : TargetTables) :
    (rows.map SaveStep.insertDR).foldl (fun u st => applySaveStep st u) t =
      { t with daily_revenue_tbl := t.daily_revenue_tbl ++ rows } := by
  induction rows generalizing t with
  | nil => simp
  | cons r rs ih =>
      simp only [List.map_cons, List.foldl_cons]
      rw [ih]
      simp [applySaveStep]

/-- Folding the `top_selling_items` inserts appends exactly those rows. -/
theorem foldl_insertTop (rows : List TopItemsRow) (t : TargetTables) :
    (rows.map SaveStep.insertTop).foldl (fun u st => applySaveStep st u) t =
      { t with top_selling_tbl := t.top_selling_tbl ++ rows } := by
  induction rows generalizing t with
  | nil => simp
  | cons r rs ih =>
      simp only [List.map_cons, List.foldl_cons]
      rw [ih]
      simp [applySaveStep]

/-- The create/truncate prefix of a save empties both tables whatever their
initial state. -/
theorem foldl_create_truncate (t : TargetTables) :
    ([SaveStep.createDR, SaveStep.createTop, SaveStep.truncateDR,
        SaveStep.truncateTop]).foldl (fun u st => applySaveStep st u) t =
      ⟨true, [], true, []⟩ := by
  rcases t with ⟨de, drt, te, tt⟩
  cases de <;> cases te <;> rfl

/-- Running every statement of one save produces `finalTables`, regardless of
the starting working snapshot. -/
theorem execSteps_saveSteps (res : Results) (s : DBSession) :
    execSteps (saveSteps res) s = ⟨s.committed, finalTables res⟩ := by
  unfold execSteps saveSteps
  simp only [List.foldl_append, foldl_create_truncate, foldl_insertDR,
    foldl_insertTop]
  simp [finalTables]

/-- A fully successful `save_results` run commits `finalTables res` and
raises nothing. -/
theorem save_results_success (s : DBSession) (res : Results) :
    save_results s res none = (⟨finalTables res, finalTables res⟩, false) := by
  simp [save_results, execSteps_saveSteps, commitSession]

/-- C4: running `save_results` twice in succession with the same aggregate
inputs (both runs succeeding) leaves the target tables in the same final
state as running it once, for every initial table state. -/
theorem save_results_idempotent (s : DBSession) (res : Results) :
    (save_results (save_results s res none).1 res none).1.committed =
      (save_results s res none).1.committed := by
  simp [save_results_success]

/-- C6: on every execution of the driver — all stages succeeding, or any one
of connect/load/transform/save/print raising — `DatabaseConnection.close` is
called exactly once, as the last call before `main` returns or propagates
the exception (which it propagates exactly when a stage failed). -/
theorem main_closes_connection_once (f : Option Stage) :
    (mainRun f).1.count Event.closeCall = 1 ∧
      (mainRun f).1.getLast? = some Event.closeCall ∧
      (mainRun f).2 = f.isSome := by
  rcases f with _ | st
  · decide
  · cases st <;> decide

/-- C7: `close` is safe when `connect` was never called (both attributes
`None`, as `__init__` leaves them) or succeeded only partially (session
opened, cursor never assigned): it checks each attribute and completes
without raising. -/
theorem close_safe_before_connect :
    connectionClose connectionInit = Except.ok () ∧
      ∀ h : Nat, connectionClose ⟨some h, none⟩ = Except.ok () :=
  ⟨rfl, fun _ => rfl⟩

/-- C10: `perform_transformations` is deterministic — two runs on equal
input datasets return equal joined data, daily revenue, and top items,
including row order. -/
theorem performTransformations_deterministic (d1 d2 : InputData)
    (h : d1 = d2) : performTransformations d1 = performTransformations d2 := by
  rw [h]

/-- Witness for `performTransformations_deterministic` at a concrete input. -/
theorem performTransformations_deterministic_witness :
    performTransformations ⟨[⟨1, 1, 1⟩], [⟨1, 1, 1⟩], [⟨1, "a", "b"⟩]⟩ =
      performTransformations ⟨[⟨1, 1, 1⟩], [⟨1, 1, 1⟩], [⟨1, "a", "b"⟩]⟩ :=
  performTransformations_deterministic _ _ rfl

/-- The daily-revenue group keys are exactly the distinct keys of the joined
data. -/
theorem mem_drGroupKeys {j : List JoinedRow} {k : Nat × String} :
    k ∈ drGroupKeys j ↔ k ∈ j.map drKey := by
  unfold drGroupKeys
  rw [(List.perm_insertionSort keyLE _).mem_iff, List.mem_dedup]

/-- The daily-revenue group keys are distinct. -/
theorem drGroupKeys_nodup (j : List JoinedRow) : (drGroupKeys j).Nodup :=
  ((List.perm_insertionSort keyLE _).nodup_iff).mpr (List.nodup_dedup _)

/-- Projecting the key columns of `daily_revenue` recovers the group keys. -/
theorem daily_revenue_map_key (j : List JoinedRow) :
    ((daily_revenue j).map fun r => (r.order_date, r.category)) = drGroupKeys j := by
  unfold daily_revenue
  rw [List.map_map]
  exact List.map_id'' (fun k => rfl) _

/-- Each `daily_revenue` row carries the sum of `total_amount` over the
joined rows of its `(order_date, category)` group. -/
theorem daily_revenue_row_sum {j : List JoinedRow} {r : DailyRevenueRow}
    (hr : r ∈ daily_revenue j) :
    r.total_amount =
      ((j.filter fun x => drKey x == (r.order_date, r.category)).map
        (·.total_amount)).sum := by
  rcases List.mem_map.mp hr with ⟨k, _, rfl⟩
  simp

/-- C1: `daily_revenue` has exactly one row per distinct
`(order_date, category)` pair of the joined data, and each row's
`total_amount` is the exact sum of `total_amount` over its group's joined
rows. -/
theorem daily_revenue_correct (d : InputData) :
    ((performTransformations d).2.1.map fun r => (r.order_date, r.category)).Nodup ∧
      (∀ k : Nat × String,
        (k ∈ (performTransformations d).2.1.map fun r => (r.order_date, r.category)) ↔
          k ∈ (performTransformations d).1.map drKey) ∧
      ∀ r ∈ (performTransformations d).2.1,
        r.total_amount =
          (((performTransformations d).1.filter fun x =>
              drKey x == (r.order_date, r.category)).map (·.total_amount)).sum := by
  refine ⟨?_, ?_, ?_⟩
  · rw [show (performTransformations d).2.1 = daily_revenue (joinedData d) from rfl,
      daily_revenue_map_key]
    exact drGroupKeys_nodup _
  · intro k
    rw [show (performTransformations d).2.1 = daily_revenue (joinedData d) from rfl,
      show (performTransformations d).1 = joinedData d from rfl,
      daily_revenue_map_key]
    exact mem_drGroupKeys
  · intro r hr
    exact daily_revenue_row_sum hr

/-- Witness for `daily_revenue_correct` on the one-order example. -/
theorem daily_revenue_correct_witness :
    (⟨20240101, "Main", 30⟩ : DailyRevenueRow).total_amount =
      (((performTransformations
          ⟨[⟨1, 20240101, 30⟩], [⟨1, 1, 2⟩], [⟨1, "Burger", "Main"⟩]⟩).1.filter
            fun x => drKey x == (20240101, "Main")).map (·.total_amount)).sum :=
  (daily_revenue_correct
      ⟨[⟨1, 20240101, 30⟩], [⟨1, 1, 2⟩], [⟨1, "Burger", "Main"⟩]⟩).2.2
    ⟨20240101, "Main", 30⟩ (by decide)

/-- The top-items group keys are exactly the distinct `(item_id, item_name)`
keys of the joined data. -/
theorem mem_tiGroupKeys {j : List JoinedRow} {k : Nat × String} :
    k ∈ tiGroupKeys j ↔ k ∈ j.map tiKey := by
  unfold tiGroupKeys
  rw [(List.perm_insertionSort keyLE _).mem_iff, List.mem_dedup]

/-- Each grouped top-items row carries its group's exact quantity sum. -/
theorem topItemsGrouped_row_sum {j : List JoinedRow} {t : TopItemsRow}
    (ht : t ∈ topItemsGrouped j) :
    t.quantity =
      ((j.filter fun x => tiKey x == (t.item_id, t.item_name)).map
        (·.quantity)).sum := by
  rcases List.mem_map.mp ht with ⟨k, _, rfl⟩
  simp

/-- Every row of `top_items` is one of the grouped rows. -/
theorem top_items_subset_grouped {j : List JoinedRow} {t : TopItemsRow}
    (ht : t ∈ top_items j) : t ∈ topItemsGrouped j := by
  unfold top_items at ht
  have h1 : t ∈ topItemsSorted j := List.Sublist.mem ht (List.take_sublist _ _)
  exact ((List.perm_insertionSort qtyGE _).mem_iff).mp h1

/-- The sorted grouped rows are sorted descending by summed quantity. -/
theorem topItemsSorted_sorted (j : List JoinedRow) :
    List.Sorted qtyGE (topItemsSorted j) :=
  List.sorted_insertionSort qtyGE (topItemsGrouped j)

/-- C2 counterexample: with two `menu_items` rows sharing `item_id` 5 under
names "A" and "B", the top row `(5, "A")` has summed quantity 3, while the
sum of `quantity` for `item_id` 5 across the joined data is 6: the
per-`item_id` sum clause of the claim fails as stated. -/
theorem top_items_per_item_sum_ce :
    ¬ ∀ t ∈ top_items (joinedData
        ⟨[⟨1, 1, 10⟩], [⟨1, 5, 3⟩], [⟨5, "A", "c"⟩, ⟨5, "B", "c"⟩]⟩),
      t.quantity =
        (((joinedData
            ⟨[⟨1, 1, 10⟩], [⟨1, 5, 3⟩], [⟨5, "A", "c"⟩, ⟨5, "B", "c"⟩]⟩).filter
          fun x => x.item_id == t.item_id).map (·.quantity)).sum := by decide

/-- C2 (amended): `top_items` contains at most 10 rows, sorted descending by
summed quantity; each row's quantity is the exact sum of `quantity` over the
joined rows of that row's `(item_id, item_name)` group; and the kept rows
are the largest groups — every dropped group's summed quantity is at most
every kept row's (ties retain the relative order of the stable sort). -/
theorem top_items_correct (d : InputData) :
    (performTransformations d).2.2.length ≤ 10 ∧
      List.Sorted qtyGE (performTransformations d).2.2 ∧
      (∀ t ∈ (performTransformations d).2.2,
        t.quantity =
          (((performTransformations d).1.filter fun x =>
              tiKey x == (t.item_id, t.item_name)).map (·.quantity)).sum) ∧
      ∀ t ∈ (performTransformations d).2.2,
        ∀ g ∈ (topItemsSorted (performTransformations d).1).drop 10,
          g.quantity ≤ t.quantity := by
  refine ⟨?_, ?_, ?_, ?_⟩
  · exact List.length_take_le 10 (topItemsSorted (joinedData d))
  · exact List.Pairwise.sublist (List.take_sublist 10 _)
      (topItemsSorted_sorted (joinedData d))
  · intro t ht
    exact topItemsGrouped_row_sum (top_items_subset_grouped ht)
  · intro t ht g hg
    have hp : List.Pairwise qtyGE
        (List.take 10 (topItemsSorted (joinedData d)) ++
          List.drop 10 (topItemsSorted (joinedData d))) := by
      rw [List.take_append_drop]
      exact topItemsSorted_sorted (joinedData d)
    exact (List.pairwise_append.mp hp).2.2 t ht g hg

/-- Witness for `top_items_correct`: eleven distinct items, so one group is
dropped; the kept top row dominates the dropped group, and its quantity is
its group's sum. -/
theorem top_items_correct_witness :
    (performTransformations
        ⟨[⟨1, 1, 0⟩],
          [⟨1, 1, 1⟩, ⟨1, 2, 2⟩, ⟨1, 3, 3⟩, ⟨1, 4, 4⟩, ⟨1, 5, 5⟩, ⟨1, 6, 6⟩,
            ⟨1, 7, 7⟩, ⟨1, 8, 8⟩, ⟨1, 9, 9⟩, ⟨1, 10, 10⟩, ⟨1, 11, 11⟩],
          [⟨1, "a", "c"⟩, ⟨2, "b", "c"⟩, ⟨3, "cc", "c"⟩, ⟨4, "d", "c"⟩,
            ⟨5, "e", "c"⟩, ⟨6, "f", "c"⟩, ⟨7, "g", "c"⟩, ⟨8, "h", "c"⟩,
            ⟨9, "i", "c"⟩, ⟨10, "j", "c"⟩, ⟨11, "k", "c"⟩]⟩).2.2.length ≤ 10 ∧
      (⟨11, "k", 11⟩ : TopItemsRow).quantity =
        (((performTransformations
            ⟨[⟨1, 1, 0⟩],
              [⟨1, 1, 1⟩, ⟨1, 2, 2⟩, ⟨1, 3, 3⟩, ⟨1, 4, 4⟩, ⟨1, 5, 5⟩, ⟨1, 6, 6⟩,
                ⟨1, 7, 7⟩, ⟨1, 8, 8⟩, ⟨1, 9, 9⟩, ⟨1, 10, 10⟩, ⟨1, 11, 11⟩],
              [⟨1, "a", "c"⟩, ⟨2, "b", "c"⟩, ⟨3, "cc", "c"⟩, ⟨4, "d", "c"⟩,
                ⟨5, "e", "c"⟩, ⟨6, "f", "c"⟩, ⟨7, "g", "c"⟩, ⟨8, "h", "c"⟩,
                ⟨9, "i", "c"⟩, ⟨10, "j", "c"⟩, ⟨11, "k", "c"⟩]⟩).1.filter
          fun x => tiKey x == (11, "k")).map (·.quantity)).sum ∧
      (⟨1, "a", 1⟩ : TopItemsRow).quantity ≤ (⟨11, "k", 11⟩ : TopItemsRow).quantity :=
  ⟨(top_items_correct _).1,
    (top_items_correct _).2.2.1 ⟨11, "k", 11⟩ (by decide),
    (top_items_correct
        ⟨[⟨1, 1, 0⟩],
          [⟨1, 1, 1⟩, ⟨1, 2, 2⟩, ⟨1, 3, 3⟩, ⟨1, 4, 4⟩, ⟨1, 5, 5⟩, ⟨1, 6, 6⟩,
            ⟨1, 7, 7⟩, ⟨1, 8, 8⟩, ⟨1, 9, 9⟩, ⟨1, 10, 10⟩, ⟨1, 11, 11⟩],
          [⟨1, "a", "c"⟩, ⟨2, "b", "c"⟩, ⟨3, "cc", "c"⟩, ⟨4, "d", "c"⟩,
            ⟨5, "e", "c"⟩, ⟨6, "f", "c"⟩, ⟨7, "g", "c"⟩, ⟨8, "h", "c"⟩,
            ⟨9, "i", "c"⟩, ⟨10, "j", "c"⟩, ⟨11, "k", "c"⟩]⟩).2.2.2
      ⟨11, "k", 11⟩ (by decide) ⟨1, "a", 1⟩ (by decide)⟩

/-- Filtering before a `flatMap` is invisible when the dropped elements
contribute empty lists. -/
theorem flatMap_filter_of_nil {α β : Type} (p : α → Bool) (f : α → List β)
    (l : List α) (h : ∀ x ∈ l, p x = false → f x = []) :
    (l.filter p).flatMap f = l.flatMap f := by
  induction l with
  | nil => rfl
  | cons a l ih =>
      have ih2 := ih fun x hx hpx => h x (List.mem_cons_of_mem _ hx) hpx
      cases hpa : p a with
      | true => simp [List.filter_cons, hpa, ih2]
      | false =>
          simp [List.filter_cons, hpa, ih2, h a (List.mem_cons_self a l) hpa]

/-- Dropping the `order_items` rows of an `item_id` that no `menu_items` row
carries leaves the joined dataset unchanged: those rows die in the second
inner join. -/
theorem joinedData_filter_unmatched_item (d : InputData) (bad : Nat)
    (hmenu : ∀ m ∈ d.menu_items, m.item_id ≠ bad) :
    joinedData
        { d with order_items := d.order_items.filter fun x => x.item_id != bad } =
      joinedData d := by
  show mergeOnItemId
      (mergeOnOrderId d.orders (d.order_items.filter fun x => x.item_id != bad))
      d.menu_items =
    mergeOnItemId (mergeOnOrderId d.orders d.order_items) d.menu_items
  unfold mergeOnItemId mergeOnOrderId
  rw [List.flatMap_assoc, List.flatMap_assoc, List.flatMap_def,
    List.flatMap_def]
  apply congrArg List.flatten
  apply List.map_congr_left
  intro o _
  rw [List.flatMap_map, List.flatMap_map]
  have hcomm :
      (d.order_items.filter fun x => x.item_id != bad).filter
          (fun oi => oi.order_id == o.order_id) =
        (d.order_items.filter fun oi => oi.order_id == o.order_id).filter
          (fun x => x.item_id != bad) := by
    rw [List.filter_filter, List.filter_filter]
    exact List.filter_congr fun x _ => Bool.and_comm _ _
  rw [hcomm]
  apply flatMap_filter_of_nil
  intro x _ hpx
  have hxb : x.item_id = bad := by simpa using hpx
  show (d.menu_items.filter fun m => m.item_id == x.item_id).map _ = []
  have hnil : d.menu_items.filter (fun m => m.item_id == x.item_id) = [] := by
    rw [List.filter_eq_nil_iff]
    intro m hm
    simp [hxb, hmenu m hm]
  rw [hnil]
  rfl

/-- Dropping the `order_items` rows of an `order_id` that no `orders` row
carries leaves the joined dataset unchanged: those rows die in the first
inner join. -/
theorem joinedData_filter_unmatched_order (d : InputData) (bad : Nat)
    (horders : ∀ o ∈ d.orders, o.order_id ≠ bad) :
    joinedData
        { d with order_items := d.order_items.filter fun x => x.order_id != bad } =
      joinedData d := by
  show mergeOnItemId
      (mergeOnOrderId d.orders (d.order_items.filter fun x => x.order_id != bad))
      d.menu_items =
    mergeOnItemId (mergeOnOrderId d.orders d.order_items) d.menu_items
  have hmerge :
      mergeOnOrderId d.orders (d.order_items.filter fun x => x.order_id != bad) =
        mergeOnOrderId d.orders d.order_items := by
    unfold mergeOnOrderId
    rw [List.flatMap_def, List.flatMap_def]
    apply congrArg List.flatten
    apply List.map_congr_left
    intro o ho
    have hfil :
        (d.order_items.filter fun x => x.order_id != bad).filter
            (fun oi => oi.order_id == o.order_id) =
          d.order_items.filter fun oi => oi.order_id == o.order_id := by
      rw [List.filter_filter]
      apply List.filter_congr
      intro x _
      cases hq : (x.order_id == o.order_id) with
      | false => simp [hq]
      | true =>
          have hxo : x.order_id = o.order_id := by simpa using hq
          simp only [hq, Bool.true_and]
          rw [hxo]
          simp [horders o ho]
    rw [hfil]
  rw [hmerge]

/-- A joined row's `item_id` is the `item_id` of some `menu_items` row. -/
theorem mem_joinedData_item {d : InputData} {jr : JoinedRow}
    (h : jr ∈ joinedData d) : ∃ m ∈ d.menu_items, m.item_id = jr.item_id := by
  unfold joinedData mergeOnItemId at h
  rcases List.mem_flatMap.mp h with ⟨r, _, hj⟩
  rcases List.mem_map.mp hj with ⟨m, hm, rfl⟩
  rcases List.mem_filter.mp hm with ⟨hm1, hm2⟩
  exact ⟨m, hm1, by simpa using hm2⟩

/-- A joined row's `order_id` is the `order_id` of some `orders` row. -/
theorem mem_joinedData_order {d : InputData} {jr : JoinedRow}
    (h : jr ∈ joinedData d) : ∃ o ∈ d.orders, o.order_id = jr.order_id := by
  unfold joinedData mergeOnItemId mergeOnOrderId at h
  rcases List.mem_flatMap.mp h with ⟨r, hr, hj⟩
  rcases List.mem_map.mp hj with ⟨m, _, rfl⟩
  rcases List.mem_flatMap.mp hr with ⟨o, ho, hro⟩
  rcases List.mem_map.mp hro with ⟨oi, _, rfl⟩
  exact ⟨o, ho, rfl⟩

/-- A `top_items` row's `item_id` comes from some joined row. -/
theorem mem_top_items_item_id {j : List JoinedRow} {t : TopItemsRow}
    (ht : t ∈ top_items j) : ∃ jr ∈ j, jr.item_id = t.item_id := by
  have h1 := top_items_subset_grouped ht
  rcases List.mem_map.mp h1 with ⟨k, hk, rfl⟩
  rcases List.mem_map.mp (mem_tiGroupKeys.mp hk) with ⟨jr, hjr, hkey⟩
  exact ⟨jr, hjr, congrArg Prod.fst hkey⟩

/-- C5: an `order_items` row whose `item_id` matches no `menu_items` row (or
whose `order_id` matches no `orders` row) contributes nothing: no joined row
or top-items row carries its id, and deleting all such rows from the input
leaves the entire `perform_transformations` result — joined data and both
aggregates — unchanged. -/
theorem unmatched_rows_dropped (d : InputData) (oi : OrderItemRow)
    (_hoi : oi ∈ d.order_items) :
    ((∀ m ∈ d.menu_items, m.item_id ≠ oi.item_id) →
      (∀ jr ∈ joinedData d, jr.item_id ≠ oi.item_id) ∧
      (∀ t ∈ top_items (joinedData d), t.item_id ≠ oi.item_id) ∧
      performTransformations
          { d with
            order_items := d.order_items.filter fun x => x.item_id != oi.item_id } =
        performTransformations d) ∧
    ((∀ o ∈ d.orders, o.order_id ≠ oi.order_id) →
      (∀ jr ∈ joinedData d, jr.order_id ≠ oi.order_id) ∧
      performTransformations
          { d with
            order_items := d.order_items.filter fun x => x.order_id != oi.order_id } =
        performTransformations d) := by
  constructor
  · intro hmenu
    refine ⟨?_, ?_, ?_⟩
    · intro jr hjr heq
      rcases mem_joinedData_item hjr with ⟨m, hm, hmid⟩
      exact hmenu m hm (by rw [hmid, heq])
    · intro t ht heq
      rcases mem_top_items_item_id ht with ⟨jr, hjr, hjid⟩
      rcases mem_joinedData_item hjr with ⟨m, hm, hmid⟩
      exact hmenu m hm (by rw [hmid, hjid, heq])
    · show (joinedData _, daily_revenue (joinedData _), top_items (joinedData _)) =
        (joinedData d, daily_revenue (joinedData d), top_items (joinedData d))
      rw [joinedData_filter_unmatched_item d oi.item_id hmenu]
  · intro horders
    refine ⟨?_, ?_⟩
    · intro jr hjr heq
      rcases mem_joinedData_order hjr with ⟨o, ho, hoid⟩
      exact horders o ho (by rw [hoid, heq])
    · show (joinedData _, daily_revenue (joinedData _), top_items (joinedData _)) =
        (joinedData d, daily_revenue (joinedData d), top_items (joinedData d))
      rw [joinedData_filter_unmatched_order d oi.order_id horders]

/-- Witness for `unmatched_rows_dropped`: the row `(9, 9, 4)` matches neither
table; filtering it away changes nothing, and the sole joined row avoids its
ids. -/
theorem unmatched_rows_dropped_witness :
    performTransformations
        ⟨[⟨1, 1, 5⟩],
          List.filter (fun x => x.item_id != 9) [⟨1, 1, 2⟩, ⟨9, 9, 4⟩],
          [⟨1, "a", "c"⟩]⟩ =
      performTransformations
        ⟨[⟨1, 1, 5⟩], [⟨1, 1, 2⟩, ⟨9, 9, 4⟩], [⟨1, "a", "c"⟩]⟩ ∧
    performTransformations
        ⟨[⟨1, 1, 5⟩],
          List.filter (fun x => x.order_id != 9) [⟨1, 1, 2⟩, ⟨9, 9, 4⟩],
          [⟨1, "a", "c"⟩]⟩ =
      performTransformations
        ⟨[⟨1, 1, 5⟩], [⟨1, 1, 2⟩, ⟨9, 9, 4⟩], [⟨1, "a", "c"⟩]⟩ ∧
    (⟨1, 1, 5, 1, 2, "a", "c"⟩ : JoinedRow).item_id ≠ 9 := by
  have h := unmatched_rows_dropped
    ⟨[⟨1, 1, 5⟩], [⟨1, 1, 2⟩, ⟨9, 9, 4⟩], [⟨1, "a", "c"⟩]⟩ ⟨9, 9, 4⟩ (by decide)
  exact ⟨(h.1 (by decide)).2.2, (h.2 (by decide)).2,
    (h.1 (by decide)).1 ⟨1, 1, 5, 1, 2, "a", "c"⟩ (by decide)⟩

/-- C8: the data-quality checks are observational only — the triple
`perform_transformations` returns with the checks in place is exactly the
triple computed without them (and the checks, being total functions to a
warning list, cannot raise or halt the pipeline); moreover whenever some
`order_id` occupies two or more joined rows, the duplicate-order warning is
among the emitted warnings, with a positive duplicate count. -/
theorem quality_checks_observational (d : InputData) :
    (performTransformationsWithChecks d).1 = performTransformations d ∧
      ∀ oid : Nat,
        2 ≤ ((joinedData d).map (·.order_id)).count oid →
          QCWarning.duplicateOrders (duplicateOrderCount (joinedData d)) ∈
              (performTransformationsWithChecks d).2 ∧
            0 < duplicateOrderCount (joinedData d) := by
  refine ⟨rfl, ?_⟩
  intro oid hcount
  have hded : ((joinedData d).map (·.order_id)).dedup.length <
      ((joinedData d).map (·.order_id)).length := by
    have hsub := List.dedup_sublist ((joinedData d).map (·.order_id))
    refine lt_of_le_of_ne hsub.length_le ?_
    intro heq
    have hnd : ((joinedData d).map (·.order_id)).Nodup := by
      rw [← hsub.eq_of_length heq]
      exact List.nodup_dedup _
    have := List.nodup_iff_count_le_one.mp hnd oid
    omega
  have hpos : 0 < duplicateOrderCount (joinedData d) := by
    unfold duplicateOrderCount
    omega
  refine ⟨?_, hpos⟩
  show QCWarning.duplicateOrders (duplicateOrderCount (joinedData d)) ∈
    dataQualityChecks (joinedData d)
  unfold dataQualityChecks anyNulls
  simp [hpos]

/-- Witness for `quality_checks_observational`: one order with two line
items, so `order_id` 1 occupies two joined rows and the duplicate warning
fires. -/
theorem quality_checks_observational_witness :
    (performTransformationsWithChecks
        ⟨[⟨1, 1, 5⟩], [⟨1, 1, 2⟩, ⟨1, 2, 3⟩],
          [⟨1, "a", "c"⟩, ⟨2, "b", "c"⟩]⟩).1 =
      performTransformations
        ⟨[⟨1, 1, 5⟩], [⟨1, 1, 2⟩, ⟨1, 2, 3⟩],
          [⟨1, "a", "c"⟩, ⟨2, "b", "c"⟩]⟩ ∧
    QCWarning.duplicateOrders
        (duplicateOrderCount (joinedData
          ⟨[⟨1, 1, 5⟩], [⟨1, 1, 2⟩, ⟨1, 2, 3⟩],
            [⟨1, "a", "c"⟩, ⟨2, "b", "c"⟩]⟩)) ∈
      (performTransformationsWithChecks
        ⟨[⟨1, 1, 5⟩], [⟨1, 1, 2⟩, ⟨1, 2, 3⟩],
          [⟨1, "a", "c"⟩, ⟨2, "b", "c"⟩]⟩).2 := by
  have h := quality_checks_observational
    ⟨[⟨1, 1, 5⟩], [⟨1, 1, 2⟩, ⟨1, 2, 3⟩], [⟨1, "a", "c"⟩, ⟨2, "b", "c"⟩]⟩
  exact ⟨h.1, (h.2 1 (by decide)).1⟩

/-- Counting with the derived pair `BEq` agrees with counting with the
`DecidableEq`-induced `BEq`. -/
theorem count_beq_eq (l : List (Nat × Int)) (a : Nat × Int) :
    l.count a = @List.count _ instBEqOfDecidableEq a l := by
  induction l with
  | nil => rfl
  | cons b l ih =>
      simp only [List.count_cons, ih, instBEqOfDecidableEq]
      by_cases hba : b = a
      · subst hba
        simp
      · simp [hba]

/-- Summing the second components of a list of pairs strictly exceeds the
deduplicated sum when every component is positive and some pair occurs at
least twice. -/
theorem sum_dedup_lt_sum (pairs : List (Nat × Int))
    (hpos : ∀ p ∈ pairs, 0 < p.2) (p0 : Nat × Int)
    (hdup : 2 ≤ pairs.count p0) :
    (pairs.dedup.map (·.2)).sum < (pairs.map (·.2)).sum := by
  have hded : (pairs.dedup.map (·.2)).sum = ∑ m ∈ pairs.toFinset, m.2 := by
    rw [← List.sum_toFinset _ (List.nodup_dedup pairs)]
    congr 1
    ext a
    simp
  have hall : (pairs.map (·.2)).sum =
      ∑ m ∈ pairs.toFinset, pairs.count m • m.2 := by
    rw [Finset.sum_list_map_count pairs (·.2)]
    exact Finset.sum_congr rfl fun m _ => by rw [count_beq_eq]
  rw [hded, hall]
  have hp0mem : p0 ∈ pairs := by
    have h0 : 0 < pairs.count p0 := by omega
    exact List.count_pos_iff.mp h0
  apply Finset.sum_lt_sum
  · intro i hi
    have hi2 : 0 < i.2 := hpos i (List.mem_toFinset.mp hi)
    have hc : 1 ≤ pairs.count i :=
      List.count_pos_iff.mpr (List.mem_toFinset.mp hi)
    calc i.2 = 1 * i.2 := (one_mul _).symm
      _ ≤ (pairs.count i : Int) * i.2 := by
          apply mul_le_mul_of_nonneg_right _ (le_of_lt hi2)
          exact_mod_cast hc
      _ = pairs.count i • i.2 := by rw [nsmul_eq_mul]
  · refine ⟨p0, List.mem_toFinset.mpr hp0mem, ?_⟩
    have hp02 : 0 < p0.2 := hpos p0 hp0mem
    have h2 : (2 : Int) ≤ (pairs.count p0 : Int) := by exact_mod_cast hdup
    calc p0.2 < 2 * p0.2 := by linarith
      _ ≤ (pairs.count p0 : Int) * p0.2 :=
          mul_le_mul_of_nonneg_right h2 (le_of_lt hp02)
      _ = pairs.count p0 • p0.2 := by rw [nsmul_eq_mul]

/-- C9 counterexample: order 1 has `total_amount` 0 and two line items in
the `(7, "c")` group, yet the group's `daily_revenue` total (0) does not
strictly exceed the distinct-orders sum (0): the claimed strict inequality
fails as stated. -/
theorem daily_revenue_overcount_ce :
    (⟨7, "c", 0⟩ : DailyRevenueRow) ∈
        daily_revenue (joinedData ⟨[⟨1, 7, 0⟩], [⟨1, 5, 1⟩, ⟨1, 6, 1⟩],
          [⟨5, "a", "c"⟩, ⟨6, "b", "c"⟩]⟩) ∧
      2 ≤ (((joinedData ⟨[⟨1, 7, 0⟩], [⟨1, 5, 1⟩, ⟨1, 6, 1⟩],
            [⟨5, "a", "c"⟩, ⟨6, "b", "c"⟩]⟩).filter fun x =>
          drKey x == (7, "c")).map fun x =>
            (x.order_id, x.total_amount)).count (1, 0) ∧
      ¬ distinctOrdersAmountSum (joinedData ⟨[⟨1, 7, 0⟩], [⟨1, 5, 1⟩, ⟨1, 6, 1⟩],
          [⟨5, "a", "c"⟩, ⟨6, "b", "c"⟩]⟩) (7, "c") < (0 : Int) := by decide

/-- C9 (amended): because daily revenue is summed over the row-per-line-item
joined data, an order contributes once per matching line item; provided
every joined row of the group has positive `total_amount`, a group in which
some order (its `order_id` with its `total_amount`) occupies two or more
joined rows has a `daily_revenue` total strictly exceeding the sum of
`total_amount` over the group's distinct `(order_id, total_amount)` pairs. -/
theorem daily_revenue_overcounts_group (d : InputData) (r : DailyRevenueRow)
    (hr : r ∈ daily_revenue (joinedData d))
    (hpos : ∀ x ∈ joinedData d,
      drKey x = (r.order_date, r.category) → 0 < x.total_amount)
    (oid : Nat) (amt : Int)
    (hdup : 2 ≤ (((joinedData d).filter fun x =>
        drKey x == (r.order_date, r.category)).map fun x =>
          (x.order_id, x.total_amount)).count (oid, amt)) :
    distinctOrdersAmountSum (joinedData d) (r.order_date, r.category) <
      r.total_amount := by
  rw [daily_revenue_row_sum hr]
  unfold distinctOrdersAmountSum
  have hmap : (((joinedData d).filter fun x =>
      drKey x == (r.order_date, r.category)).map (·.total_amount)) =
        ((((joinedData d).filter fun x =>
          drKey x == (r.order_date, r.category)).map fun x =>
            (x.order_id, x.total_amount)).map (·.2)) := by
    rw [List.map_map]
    rfl
  rw [hmap]
  apply sum_dedup_lt_sum _ _ (oid, amt) hdup
  intro p hp
  rcases List.mem_map.mp hp with ⟨x, hx, rfl⟩
  rcases List.mem_filter.mp hx with ⟨hxj, hxk⟩
  exact hpos x hxj (by simpa using hxk)

/-- Witness for `daily_revenue_overcounts_group`: order 1 (amount 10) has
two line items in group `(7, "c")`; the group total 20 strictly exceeds the
distinct-orders sum 10. -/
theorem daily_revenue_overcounts_group_witness :
    distinctOrdersAmountSum (joinedData ⟨[⟨1, 7, 10⟩], [⟨1, 5, 1⟩, ⟨1, 6, 1⟩],
        [⟨5, "a", "c"⟩, ⟨6, "b", "c"⟩]⟩) (7, "c") < (20 : Int) :=
  daily_revenue_overcounts_group
    ⟨[⟨1, 7, 10⟩], [⟨1, 5, 1⟩, ⟨1, 6, 1⟩], [⟨5, "a", "c"⟩, ⟨6, "b", "c"⟩]⟩
    ⟨7, "c", 20⟩ (by decide) (by decide) 1 10 (by decide)
